import Mathlib

/-!
Verification of `docs/conf.py` (ComPWA/compwa-org).

The file under verification is the Sphinx configuration script of the
documentation site.  Its computational content is two helper functions,

  * `get_nb_exclusion_patterns`, which computes the sorted list of glob
    patterns of notebooks excluded from execution, depending on whether the
    `julia` executable is on the search path and whether the `READTHEDOCS`
    environment variable is set, and

  * `install_ijulia`, which conditionally spawns exactly one subprocess
    (`julia InstallIJulia.jl`) depending on whether `julia` is on the search
    path and whether `EXECUTE_NB` or `FORCE_EXECUTE_NB` is set,

plus a long sequence of module-level configuration assignments.

The embedding below represents the environment by booleans
(`shutil.which("julia") is not None`, membership of each environment
variable in `os.environ`), subprocess activity by the list of issued
command lines, and `subprocess.check_call` by an `Except` value that is an
error exactly when the spawned process exits with a non-zero return code.
-/

/-- The environment facts read by `docs/conf.py`:
`juliaOnPath` models `shutil.which("julia") is not None`;
the other three fields model membership of the variables
`EXECUTE_NB`, `FORCE_EXECUTE_NB` and `READTHEDOCS` in `os.environ`. -/
structure Env where
  juliaOnPath : Bool
  execute_nb : Bool
  force_execute_nb : Bool
  readthedocs : Bool
deriving DecidableEq, Repr, Fintype

/-- The 20 glob patterns of the set literal `exclusions` in
`get_nb_exclusion_patterns` (docs/conf.py lines 27-48), in source order.
The Python value is a `set`; since these 20 string literals are pairwise
distinct, a list faithfully represents it. -/
def exclusionsBase : List String :=
  [ "adr/001/*",
    "adr/002/*",
    "report/000*",
    "report/001*",
    "report/002*",
    "report/005*",
    "report/008*",
    "report/009*",
    "report/010*",
    "report/011*",
    "report/012*",
    "report/013*",
    "report/014*",
    "report/015*",
    "report/017*",
    "report/018*",
    "report/020*",
    "report/021*",
    "report/022*",
    "report/033*" ]

/-- The set literal `julia_notebooks` (docs/conf.py lines 49-51). -/
def julia_notebooks : List String :=
  ["report/019*"]

/-- Python `set.update`: add the elements of `extra` that are not already
members.  (A Python set retains membership, not position, so appending the
genuinely new elements is a faithful list representation.) -/
def setUpdate (s extra : List String) : List String :=
  s ++ extra.filter (fun p => !(s.contains p))

/-- Strict comparison of strings by the lexicographic order on their
character (code-point) lists.  This is the order Python's `sorted` uses on
`str` values; `strLtB_iff` below shows it agrees with the order on
`String`. -/
def strLtB (a b : String) : Bool :=
  decide (a.data < b.data)

/-- Reflexive comparison of strings by code-point lexicographic order
(the negation of the reverse strict comparison, as in a linear order). -/
def strLeB (a b : String) : Bool :=
  !(strLtB b a)

/-- `get_nb_exclusion_patterns` (docs/conf.py lines 26-54): start from the
base set, add `julia_notebooks` when `shutil.which("julia") is None` or
`"READTHEDOCS" in os.environ`, and return `sorted(exclusions)`. -/
def get_nb_exclusion_patterns (env : Env) : List String :=
  let exclusions := exclusionsBase
  let exclusions :=
    if env.juliaOnPath = false || env.readthedocs then
      setUpdate exclusions julia_notebooks
    else
      exclusions
  exclusions.insertionSort (fun a b => strLeB a b = true)

/-- The exception raised by `subprocess.check_call` on a non-zero exit
status of the spawned process. -/
structure CalledProcessError where
  returncode : Int
  cmd : List String
deriving DecidableEq, Repr

/-- `subprocess.check_call(cmd)` where the spawned process exits with
status `returncode`: raises `CalledProcessError` iff `returncode ≠ 0`. -/
def check_call (cmd : List String) (returncode : Int) :
    Except CalledProcessError Unit :=
  if returncode = 0 then Except.ok ()
  else Except.error { returncode := returncode, cmd := cmd }

/-- `install_ijulia` (docs/conf.py lines 57-61).  Returns the list of
subprocess command lines it issues together with its outcome
(`Except.error e` models the function raising `e`, `Except.ok ()` a normal
return).  `returncode` is the exit status of the spawned process in case a
process is spawned at all. -/
def install_ijulia (env : Env) (returncode : Int) :
    List (List String) × Except CalledProcessError Unit :=
  if env.juliaOnPath = false then
    ([], Except.ok ())
  else if env.execute_nb || env.force_execute_nb then
    ([["julia", "InstallIJulia.jl"]],
      check_call ["julia", "InstallIJulia.jl"] returncode)
  else
    ([], Except.ok ())

/-- The targets of the module-level assignment statements of
`docs/conf.py`, in source order (lines 81-288).  These are all the
statements in the file that bind a module-level configuration name; the
file contains no augmented assignment and no statement mutating any of
these values after its assignment. -/
def moduleLevelAssignmentTargets : List String :=
  [ "BRANCH",
    "ORGANIZATION",
    "REPO_NAME",
    "REPO_TITLE",
    "BINDER_LINK",
    "autosectionlabel_prefix_document",
    "bibtex_bibfiles",
    "bibtex_reference_style",
    "codeautolink_concat_default",
    "codeautolink_global_preface",
    "comments_config",
    "copybutton_prompt_is_regexp",
    "copybutton_prompt_text",
    "copyright",
    "default_role",
    "exclude_patterns",
    "extensions",
    "graphviz_output_format",
    "html_css_files",
    "html_favicon",
    "html_js_files",
    "html_last_updated_fmt",
    "html_logo",
    "html_show_copyright",
    "html_static_path",
    "html_theme",
    "html_theme_options",
    "html_title",
    "intersphinx_mapping",
    "linkcheck_anchors",
    "linkcheck_ignore",
    "myst_enable_extensions",
    "myst_heading_anchors",
    "myst_substitutions",
    "myst_update_mathjax",
    "nb_execution_excludepatterns",
    "nb_execution_mode",
    "nb_execution_show_tb",
    "nb_execution_timeout",
    "nb_output_stderr",
    "nitpicky",
    "primary_domain",
    "project",
    "remove_from_toctrees",
    "source_suffix",
    "suppress_warnings",
    "thebe_config",
    "todo_include_todos" ]

/-- The boolean comparator `strLtB` agrees with the strict order on
`String`: Python sorts strings by code points, and so does Lean. -/
lemma strLtB_iff (a b : String) : strLtB a b = true ↔ a < b := by
  rw [String.lt_iff_toList_lt]
  exact decide_eq_true_iff

/-- The boolean comparator `strLeB` agrees with the reflexive order on
`String`. -/
lemma strLeB_iff (a b : String) : strLeB a b = true ↔ a ≤ b := by
  rw [strLeB, Bool.not_eq_true', ← Bool.not_eq_true, strLtB_iff]
  exact not_lt

/-- Every result of `get_nb_exclusion_patterns` is strictly increasing in
the order on `String`. -/
lemma pairwise_lt_exclusion_patterns (env : Env) :
    List.Pairwise (fun a b : String => a < b) (get_nb_exclusion_patterns env) := by
  rcases env with ⟨j, x, f, r⟩
  have key : ∀ e : Env,
      List.Pairwise (fun a b : String => strLtB a b = true)
        (get_nb_exclusion_patterns e) →
      List.Pairwise (fun a b : String => a < b) (get_nb_exclusion_patterns e) :=
    fun e h => h.imp (fun hab => (strLtB_iff _ _).mp hab)
  cases j <;> cases x <;> cases f <;> cases r <;> exact key _ (by decide)

/-- C1: whenever `julia` is on the search path and at least one of
`EXECUTE_NB` and `FORCE_EXECUTE_NB` is set, `install_ijulia` issues
exactly one subprocess invocation, namely `julia InstallIJulia.jl`. -/
theorem install_ijulia_exactly_one_call (env : Env) (rc : Int)
    (hj : env.juliaOnPath = true)
    (hv : env.execute_nb = true ∨ env.force_execute_nb = true) :
    (install_ijulia env rc).1 = [["julia", "InstallIJulia.jl"]] := by
  rcases env with ⟨j, x, f, r⟩
  have hj' : j = true := hj
  subst hj'
  rcases hv with hx | hf
  · have hx' : x = true := hx
    subst hx'
    rfl
  · have hf' : f = true := hf
    subst hf'
    cases x <;> rfl

/-- Witness for C1: with `julia` available and `EXECUTE_NB` set, the
single issued command line is `julia InstallIJulia.jl`. -/
theorem install_ijulia_exactly_one_call_witness :
    (install_ijulia ⟨true, true, false, false⟩ 0).1 =
      [["julia", "InstallIJulia.jl"]] :=
  install_ijulia_exactly_one_call ⟨true, true, false, false⟩ 0 rfl (Or.inl rfl)

/-- C2: whenever `julia` is absent from the search path, `install_ijulia`
issues no subprocess call, whatever the environment variables are. -/
theorem install_ijulia_no_call_without_julia (env : Env) (rc : Int)
    (hj : env.juliaOnPath = false) :
    (install_ijulia env rc).1 = [] := by
  rcases env with ⟨j, x, f, r⟩
  have hj' : j = false := hj
  subst hj'
  rfl

/-- Witness for C2: with `julia` absent but all environment variables set,
no command line is issued. -/
theorem install_ijulia_no_call_without_julia_witness :
    (install_ijulia ⟨false, true, true, true⟩ 1).1 = [] :=
  install_ijulia_no_call_without_julia ⟨false, true, true, true⟩ 1 rfl

/-- C3: whenever `julia` is absent from the search path, the result of
`get_nb_exclusion_patterns` contains the extra pattern `report/019*`. -/
theorem exclusion_includes_019_without_julia (env : Env)
    (hj : env.juliaOnPath = false) :
    "report/019*" ∈ get_nb_exclusion_patterns env := by
  rcases env with ⟨j, x, f, r⟩
  have hj' : j = false := hj
  subst hj'
  cases x <;> cases f <;> cases r <;> decide

/-- Witness for C3: with `julia` absent and no other variable set, the
pattern `report/019*` is in the computed exclusion list. -/
theorem exclusion_includes_019_without_julia_witness :
    "report/019*" ∈ get_nb_exclusion_patterns ⟨false, false, false, false⟩ :=
  exclusion_includes_019_without_julia ⟨false, false, false, false⟩ rfl

/-- C4: whenever `READTHEDOCS` is set, the result of
`get_nb_exclusion_patterns` contains the extra pattern `report/019*`,
whether or not `julia` is on the search path. -/
theorem exclusion_includes_019_on_readthedocs (env : Env)
    (hr : env.readthedocs = true) :
    "report/019*" ∈ get_nb_exclusion_patterns env := by
  rcases env with ⟨j, x, f, r⟩
  have hr' : r = true := hr
  subst hr'
  cases j <;> cases x <;> cases f <;> decide

/-- Witness for C4: with `READTHEDOCS` set and `julia` present, the
pattern `report/019*` is in the computed exclusion list. -/
theorem exclusion_includes_019_on_readthedocs_witness :
    "report/019*" ∈ get_nb_exclusion_patterns ⟨true, false, false, true⟩ :=
  exclusion_includes_019_on_readthedocs ⟨true, false, false, true⟩ rfl

/-- C5: the exclusion list depends only on interpreter presence and the
`READTHEDOCS` marker (two environments agreeing on these two inputs give
equal outputs), and it is strictly increasing in the order on `String`,
hence sorted ascending without duplicates. -/
theorem exclusion_deterministic_sorted (e₁ e₂ : Env)
    (hj : e₁.juliaOnPath = e₂.juliaOnPath)
    (hr : e₁.readthedocs = e₂.readthedocs) :
    get_nb_exclusion_patterns e₁ = get_nb_exclusion_patterns e₂ ∧
    List.Pairwise (fun a b : String => a < b) (get_nb_exclusion_patterns e₁) ∧
    (get_nb_exclusion_patterns e₁).Nodup := by
  refine ⟨?_, pairwise_lt_exclusion_patterns e₁,
    (pairwise_lt_exclusion_patterns e₁).imp (fun h => ne_of_lt h)⟩
  rcases e₁ with ⟨j₁, x₁, f₁, r₁⟩
  rcases e₂ with ⟨j₂, x₂, f₂, r₂⟩
  have hj' : j₁ = j₂ := hj
  have hr' : r₁ = r₂ := hr
  subst hj'
  subst hr'
  rfl

/-- Witness for C5: two environments differing only in the execution
flags give the same sorted, duplicate-free exclusion list. -/
theorem exclusion_deterministic_sorted_witness :
    get_nb_exclusion_patterns ⟨true, false, false, false⟩ =
      get_nb_exclusion_patterns ⟨true, true, true, false⟩ ∧
    List.Pairwise (fun a b : String => a < b)
      (get_nb_exclusion_patterns ⟨true, false, false, false⟩) ∧
    (get_nb_exclusion_patterns ⟨true, false, false, false⟩).Nodup :=
  exclusion_deterministic_sorted ⟨true, false, false, false⟩
    ⟨true, true, true, false⟩ rfl rfl

/-- C6: with `julia` on the search path but neither `EXECUTE_NB` nor
`FORCE_EXECUTE_NB` set, `install_ijulia` issues no subprocess call. -/
theorem install_ijulia_no_call_without_flags (env : Env) (rc : Int)
    (hj : env.juliaOnPath = true) (hx : env.execute_nb = false)
    (hf : env.force_execute_nb = false) :
    (install_ijulia env rc).1 = [] := by
  rcases env with ⟨j, x, f, r⟩
  have hj' : j = true := hj
  have hx' : x = false := hx
  have hf' : f = false := hf
  subst hj'
  subst hx'
  subst hf'
  rfl

/-- Witness for C6: `julia` present, no execution flag set, no command
line issued. -/
theorem install_ijulia_no_call_without_flags_witness :
    (install_ijulia ⟨true, false, false, false⟩ 0).1 = [] :=
  install_ijulia_no_call_without_flags ⟨true, false, false, false⟩ 0 rfl rfl rfl

/-- C7: when `install_ijulia` spawns the subprocess, a non-zero exit
status makes it raise `CalledProcessError` (the error is not handled
locally), and a zero exit status makes it return normally. -/
theorem install_ijulia_propagates_exit_status (env : Env) (rc : Int)
    (hj : env.juliaOnPath = true)
    (hv : env.execute_nb = true ∨ env.force_execute_nb = true) :
    (rc ≠ 0 → (install_ijulia env rc).2 =
      Except.error { returncode := rc, cmd := ["julia", "InstallIJulia.jl"] }) ∧
    (rc = 0 → (install_ijulia env rc).2 = Except.ok ()) := by
  have hcall : (install_ijulia env rc).2 =
      check_call ["julia", "InstallIJulia.jl"] rc := by
    rcases env with ⟨j, x, f, r⟩
    have hj' : j = true := hj
    subst hj'
    rcases hv with hx | hf
    · have hx' : x = true := hx
      subst hx'
      rfl
    · have hf' : f = true := hf
      subst hf'
      cases x <;> rfl
  rw [hcall]
  constructor
  · intro hne
    simp only [check_call]
    rw [if_neg hne]
  · intro h0
    simp only [check_call]
    rw [if_pos h0]

/-- Witness for C7: with `FORCE_EXECUTE_NB` set and exit status 1, the
subprocess failure propagates as a `CalledProcessError`. -/
theorem install_ijulia_propagates_exit_status_witness :
    ((1 : Int) ≠ 0 → (install_ijulia ⟨true, false, true, false⟩ 1).2 =
      Except.error { returncode := 1, cmd := ["julia", "InstallIJulia.jl"] }) ∧
    ((1 : Int) = 0 →
      (install_ijulia ⟨true, false, true, false⟩ 1).2 = Except.ok ()) :=
  install_ijulia_propagates_exit_status ⟨true, false, true, false⟩ 1 rfl
    (Or.inr rfl)

/-- Counterexample to C8: the computation never removes anything relative
to the fixed base set — in no environment does a base pattern go missing
from the result, so the claimed "adding and removing" is refuted (the
mutation is an addition only). -/
theorem exclusion_no_removal_counterexample :
    ¬ ∃ env : Env, ∃ p ∈ exclusionsBase, p ∉ get_nb_exclusion_patterns env := by
  decide

/-- C8 (amended): the exclusion set is mutated exactly once at startup by
conditionally ADDING the platform-dependent subset `julia_notebooks`; no
pattern is ever removed.  Every base pattern is in the result, every result
element comes from the base set or from `julia_notebooks`, and the extra
pattern is present exactly when `julia` is absent or `READTHEDOCS` is
set. -/
theorem exclusion_conditionally_adds_only (env : Env) :
    (∀ p ∈ exclusionsBase, p ∈ get_nb_exclusion_patterns env) ∧
    (∀ p ∈ get_nb_exclusion_patterns env,
      p ∈ exclusionsBase ∨ p ∈ julia_notebooks) ∧
    ("report/019*" ∈ get_nb_exclusion_patterns env ↔
      (env.juliaOnPath = false ∨ env.readthedocs = true)) := by
  rcases env with ⟨j, x, f, r⟩
  cases j <;> cases x <;> cases f <;> cases r <;> decide

/-- C9: each module-level configuration name is the target of exactly one
assignment statement in `docs/conf.py`: the assignment-target sequence has
no repeated name, and in particular the five named configuration values
are each assigned exactly once. -/
theorem module_config_assigned_once :
    moduleLevelAssignmentTargets.Nodup ∧
    moduleLevelAssignmentTargets.count "exclude_patterns" = 1 ∧
    moduleLevelAssignmentTargets.count "intersphinx_mapping" = 1 ∧
    moduleLevelAssignmentTargets.count "linkcheck_ignore" = 1 ∧
    moduleLevelAssignmentTargets.count "html_theme_options" = 1 ∧
    moduleLevelAssignmentTargets.count "nb_execution_excludepatterns" = 1 := by
  decide

/-- C10: with `julia` present and `READTHEDOCS` absent, the exclusion
list is exactly the 20 base patterns in sorted order and `report/019*` is
not among them; in every environment the result contains all base patterns
and has length 20 or 21. -/
theorem exclusion_base_exact (env : Env)
    (hj : env.juliaOnPath = true) (hr : env.readthedocs = false) :
    get_nb_exclusion_patterns env =
      [ "adr/001/*", "adr/002/*", "report/000*", "report/001*",
        "report/002*", "report/005*", "report/008*", "report/009*",
        "report/010*", "report/011*", "report/012*", "report/013*",
        "report/014*", "report/015*", "report/017*", "report/018*",
        "report/020*", "report/021*", "report/022*", "report/033*" ] ∧
    "report/019*" ∉ get_nb_exclusion_patterns env ∧
    (∀ e : Env, (∀ p ∈ exclusionsBase, p ∈ get_nb_exclusion_patterns e) ∧
      ((get_nb_exclusion_patterns e).length = 20 ∨
        (get_nb_exclusion_patterns e).length = 21)) := by
  rcases env with ⟨j, x, f, r⟩
  have hj' : j = true := hj
  have hr' : r = false := hr
  subst hj'
  subst hr'
  refine ⟨?_, ?_, ?_⟩
  · cases x <;> cases f <;> decide
  · cases x <;> cases f <;> decide
  · intro e
    rcases e with ⟨j', x', f', r'⟩
    cases j' <;> cases x' <;> cases f' <;> cases r' <;> decide

/-- Witness for C10: the concrete environment with `julia` present and no
variable set yields exactly the sorted base list. -/
theorem exclusion_base_exact_witness :
    get_nb_exclusion_patterns ⟨true, false, false, false⟩ =
      [ "adr/001/*", "adr/002/*", "report/000*", "report/001*",
        "report/002*", "report/005*", "report/008*", "report/009*",
        "report/010*", "report/011*", "report/012*", "report/013*",
        "report/014*", "report/015*", "report/017*", "report/018*",
        "report/020*", "report/021*", "report/022*", "report/033*" ] ∧
    "report/019*" ∉ get_nb_exclusion_patterns ⟨true, false, false, false⟩ ∧
    (∀ e : Env, (∀ p ∈ exclusionsBase, p ∈ get_nb_exclusion_patterns e) ∧
      ((get_nb_exclusion_patterns e).length = 20 ∨
        (get_nb_exclusion_patterns e).length = 21)) :=
  exclusion_base_exact ⟨true, false, false, false⟩ rfl rfl
